import Mathlib

/-
Verification of the OCIH-Mission-Hub safety-critical command layer.

The development shallowly embeds:
  * the waypoint-command parameter table `WAYPOINT_COMMANDS`, the bounds
    checker `validateParameter` and the `COLUMBIA_SC_SAFETY_LIMITS`
    constants (translated from the module embedded in
    `.github/workflows/hardware-safety-ci.yml`);
  * the connection-loss action map of `simulateConnectionLoss` and the
    `JSON.parse` startup override (translated from `src/main.ts`);
  * the Mission/Parameter Validator pipeline, the Safety Monitor state
    machine, the Command Dispatcher rate limiter / queue, the MAVLink v2
    frame codec and the geofence check, whose implementations live in
    `MAVLinkService`, a file that is not part of the sources; those are
    modelled from the specification and carry a doc comment saying so.

JavaScript numbers are modelled as `Option ℚ`: `some q` is the finite
value `q` and `none` is `NaN`.  All numeric literals appearing in the
repository's tables are exact decimals, hence representable in `ℚ`.
Infinities do not occur in the embedded code and are not modelled.
-/

/-- A JavaScript number: `some q` is a finite value, `none` is `NaN`. -/
abbrev JSNum := Option ℚ

/-- JavaScript `<` on numbers: any comparison involving `NaN` is `false`. -/
def jsLT (a : JSNum) (b : ℚ) : Bool :=
  match a with
  | some q => decide (q < b)
  | none => false

/-- JavaScript `>` on numbers: any comparison involving `NaN` is `false`. -/
def jsGT (a : JSNum) (b : ℚ) : Bool :=
  match a with
  | some q => decide (b < q)
  | none => false

/-- Translated from `WaypointParameter` in the waypoint-commands module
(embedded in `.github/workflows/hardware-safety-ci.yml`).  The
display-only fields `description`, `unit`, `precision` and `options` are
omitted: `validateParameter` and every claim read only `name`, `min`,
`max` and `default`.  `min?`/`max?` being `none` models the TypeScript
`undefined`; no entry of the table uses a `NaN` bound, so bounds are
plain rationals. -/
structure WaypointParameter where
  name : String
  min? : Option ℚ
  max? : Option ℚ
  default : JSNum
deriving DecidableEq, Repr

/-- Translated from `validateParameter`: the test
`param.min !== undefined && value < param.min`. -/
def minDefinedAndBelow (param : WaypointParameter) (value : JSNum) : Bool :=
  match param.min? with
  | some m => jsLT value m
  | none => false

/-- Translated from `validateParameter`: the test
`param.max !== undefined && value > param.max`. -/
def maxDefinedAndAbove (param : WaypointParameter) (value : JSNum) : Bool :=
  match param.max? with
  | some M => jsGT value M
  | none => false

/-- Translated from `validateParameter` in the waypoint-commands module:
return `false` when a defined `min` is undercut, else `false` when a
defined `max` is exceeded, else `true`. -/
def validateParameter (param : WaypointParameter) (value : JSNum) : Bool :=
  if minDefinedAndBelow param value then false
  else if maxDefinedAndAbove param value then false
  else true

/-- Translated from the `MAVCmd` keys used by `WAYPOINT_COMMANDS`. -/
inductive MAVCmd where
  | NAV_WAYPOINT
  | NAV_TAKEOFF
  | NAV_LAND
  | NAV_RETURN_TO_LAUNCH
  | NAV_LOITER_TIME
  | NAV_LOITER_UNLIM
  | DO_SET_ROI
  | DO_DIGICAM_CONTROL
  | DO_CHANGE_SPEED
  | CONDITION_YAW
deriving DecidableEq, Fintype, Repr

/-- Translated from `MAVFrame` (only the values the table uses). -/
def MAVFrame_MISSION : ℕ := 2

/-- Translated from `MAVFrame` (only the values the table uses). -/
def MAVFrame_GLOBAL_RELATIVE_ALT_INT : ℕ := 6

/-- Translated from `WaypointCommandDefinition`; `description` and
`supportedPlatforms` are display-only and omitted.  The source stores
the 7 parameters as a 7-tuple; here they are a list whose length is 7
for every entry of the table. -/
structure WaypointCommandDefinition where
  command : MAVCmd
  name : String
  category : String
  frame : ℕ
  params : List WaypointParameter
deriving DecidableEq, Repr

/-- Translated from `WAYPOINT_COMMANDS[MAVCmd.NAV_WAYPOINT]`. -/
def navWaypointDef : WaypointCommandDefinition :=
  { command := .NAV_WAYPOINT
    name := "Waypoint"
    category := "Navigation"
    frame := MAVFrame_GLOBAL_RELATIVE_ALT_INT
    params :=
      [ { name := "Hold Time", min? := some 0, max? := some 3600, default := some 0 }
      , { name := "Accept Radius", min? := some 0, max? := some 1000, default := some 3 }
      , { name := "Pass Through", min? := some 0, max? := some 1, default := some 0 }
      , { name := "Desired Yaw", min? := some (-180), max? := some 180, default := none }
      , { name := "Latitude", min? := some (-90), max? := some 90, default := some 0 }
      , { name := "Longitude", min? := some (-180), max? := some 180, default := some 0 }
      , { name := "Altitude", min? := some (-1000), max? := some 10000, default := some 50 } ] }

/-- Translated from `WAYPOINT_COMMANDS[MAVCmd.NAV_TAKEOFF]`. -/
def navTakeoffDef : WaypointCommandDefinition :=
  { command := .NAV_TAKEOFF
    name := "Takeoff"
    category := "Navigation"
    frame := MAVFrame_GLOBAL_RELATIVE_ALT_INT
    params :=
      [ { name := "Minimum Pitch", min? := some (-45), max? := some 45, default := some 0 }
      , { name := "Empty", min? := some 0, max? := some 0, default := some 0 }
      , { name := "Empty", min? := some 0, max? := some 0, default := some 0 }
      , { name := "Desired Yaw", min? := some (-180), max? := some 180, default := none }
      , { name := "Latitude", min? := some (-90), max? := some 90, default := some 0 }
      , { name := "Longitude", min? := some (-180), max? := some 180, default := some 0 }
      , { name := "Altitude", min? := some 1, max? := some 1000, default := some 10 } ] }

/-- Translated from `WAYPOINT_COMMANDS[MAVCmd.NAV_LAND]`. -/
def navLandDef : WaypointCommandDefinition :=
  { command := .NAV_LAND
    name := "Land"
    category := "Navigation"
    frame := MAVFrame_GLOBAL_RELATIVE_ALT_INT
    params :=
      [ { name := "Abort Altitude", min? := some 0, max? := some 100, default := some 0 }
      , { name := "Landing Mode", min? := some 0, max? := some 2, default := some 0 }
      , { name := "Empty", min? := some 0, max? := some 0, default := some 0 }
      , { name := "Desired Yaw", min? := some (-180), max? := some 180, default := none }
      , { name := "Latitude", min? := some (-90), max? := some 90, default := some 0 }
      , { name := "Longitude", min? := some (-180), max? := some 180, default := some 0 }
      , { name := "Altitude", min? := some (-1000), max? := some 1000, default := some 0 } ] }

/-- Translated from `WAYPOINT_COMMANDS[MAVCmd.NAV_RETURN_TO_LAUNCH]`. -/
def navReturnToLaunchDef : WaypointCommandDefinition :=
  { command := .NAV_RETURN_TO_LAUNCH
    name := "Return to Launch"
    category := "Navigation"
    frame := MAVFrame_MISSION
    params :=
      [ { name := "Empty", min? := some 0, max? := some 0, default := some 0 }
      , { name := "Empty", min? := some 0, max? := some 0, default := some 0 }
      , { name := "Empty", min? := some 0, max? := some 0, default := some 0 }
      , { name := "Empty", min? := some 0, max? := some 0, default := some 0 }
      , { name := "Empty", min? := some 0, max? := some 0, default := some 0 }
      , { name := "Empty", min? := some 0, max? := some 0, default := some 0 }
      , { name := "Empty", min? := some 0, max? := some 0, default := some 0 } ] }

/-- Translated from `WAYPOINT_COMMANDS[MAVCmd.NAV_LOITER_TIME]`. -/
def navLoiterTimeDef : WaypointCommandDefinition :=
  { command := .NAV_LOITER_TIME
    name := "Loiter Time"
    category := "Navigation"
    frame := MAVFrame_GLOBAL_RELATIVE_ALT_INT
    params :=
      [ { name := "Loiter Time", min? := some 0, max? := some 3600, default := some 10 }
      , { name := "Empty", min? := some 0, max? := some 0, default := some 0 }
      , { name := "Loiter Radius", min? := some (-1000), max? := some 1000, default := some 0 }
      , { name := "Exit Heading", min? := some (-180), max? := some 180, default := none }
      , { name := "Latitude", min? := some (-90), max? := some 90, default := some 0 }
      , { name := "Longitude", min? := some (-180), max? := some 180, default := some 0 }
      , { name := "Altitude", min? := some (-1000), max? := some 10000, default := some 50 } ] }

/-- Translated from `WAYPOINT_COMMANDS[MAVCmd.NAV_LOITER_UNLIM]`. -/
def navLoiterUnlimDef : WaypointCommandDefinition :=
  { command := .NAV_LOITER_UNLIM
    name := "Loiter Unlimited"
    category := "Navigation"
    frame := MAVFrame_GLOBAL_RELATIVE_ALT_INT
    params :=
      [ { name := "Empty", min? := some 0, max? := some 0, default := some 0 }
      , { name := "Empty", min? := some 0, max? := some 0, default := some 0 }
      , { name := "Loiter Radius", min? := some (-1000), max? := some 1000, default := some 0 }
      , { name := "Exit Heading", min? := some (-180), max? := some 180, default := none }
      , { name := "Latitude", min? := some (-90), max? := some 90, default := some 0 }
      , { name := "Longitude", min? := some (-180), max? := some 180, default := some 0 }
      , { name := "Altitude", min? := some (-1000), max? := some 10000, default := some 50 } ] }

/-- Translated from `WAYPOINT_COMMANDS[MAVCmd.DO_SET_ROI]`. -/
def doSetRoiDef : WaypointCommandDefinition :=
  { command := .DO_SET_ROI
    name := "Set ROI"
    category := "Camera"
    frame := MAVFrame_GLOBAL_RELATIVE_ALT_INT
    params :=
      [ { name := "ROI Mode", min? := some 0, max? := some 4, default := some 0 }
      , { name := "Waypoint Index", min? := some 0, max? := some 65535, default := some 0 }
      , { name := "ROI Index", min? := some 0, max? := some 255, default := some 0 }
      , { name := "Empty", min? := some 0, max? := some 0, default := some 0 }
      , { name := "Latitude", min? := some (-90), max? := some 90, default := some 0 }
      , { name := "Longitude", min? := some (-180), max? := some 180, default := some 0 }
      , { name := "Altitude", min? := some (-1000), max? := some 10000, default := some 0 } ] }

/-- Translated from `WAYPOINT_COMMANDS[MAVCmd.DO_DIGICAM_CONTROL]`. -/
def doDigicamControlDef : WaypointCommandDefinition :=
  { command := .DO_DIGICAM_CONTROL
    name := "Camera Trigger"
    category := "Camera"
    frame := MAVFrame_MISSION
    params :=
      [ { name := "Session Control", min? := some 0, max? := some 2, default := some 1 }
      , { name := "Zoom Position", min? := some 0, max? := some 100, default := some 0 }
      , { name := "Zoom Step", min? := some (-50), max? := some 50, default := some 0 }
      , { name := "Focus Lock", min? := some 0, max? := some 2, default := some 0 }
      , { name := "Shooting Command", min? := some 0, max? := some 1, default := some 1 }
      , { name := "Command Identity", min? := some 0, max? := some 255, default := some 0 }
      , { name := "Empty", min? := some 0, max? := some 0, default := some 0 } ] }

/-- Translated from `WAYPOINT_COMMANDS[MAVCmd.DO_CHANGE_SPEED]`. -/
def doChangeSpeedDef : WaypointCommandDefinition :=
  { command := .DO_CHANGE_SPEED
    name := "Change Speed"
    category := "Action"
    frame := MAVFrame_MISSION
    params :=
      [ { name := "Speed Type", min? := some 0, max? := some 3, default := some 0 }
      , { name := "Target Speed", min? := some 0, max? := some 50, default := some 10 }
      , { name := "Throttle", min? := some (-1), max? := some 100, default := some (-1) }
      , { name := "Relative", min? := some 0, max? := some 1, default := some 0 }
      , { name := "Empty", min? := some 0, max? := some 0, default := some 0 }
      , { name := "Empty", min? := some 0, max? := some 0, default := some 0 }
      , { name := "Empty", min? := some 0, max? := some 0, default := some 0 } ] }

/-- Translated from `WAYPOINT_COMMANDS[MAVCmd.CONDITION_YAW]`. -/
def conditionYawDef : WaypointCommandDefinition :=
  { command := .CONDITION_YAW
    name := "Condition Yaw"
    category := "Condition"
    frame := MAVFrame_MISSION
    params :=
      [ { name := "Target Angle", min? := some (-180), max? := some 180, default := some 0 }
      , { name := "Angular Speed", min? := some 0, max? := some 180, default := some 0 }
      , { name := "Direction", min? := some (-1), max? := some 1, default := some 1 }
      , { name := "Relative", min? := some 0, max? := some 1, default := some 0 }
      , { name := "Empty", min? := some 0, max? := some 0, default := some 0 }
      , { name := "Empty", min? := some 0, max? := some 0, default := some 0 }
      , { name := "Empty", min? := some 0, max? := some 0, default := some 0 } ] }

/-- Translated from the `WAYPOINT_COMMANDS` record: in the source it is a
total `Record<MAVCmd, WaypointCommandDefinition>` keyed by the ten
commands above. -/
def WAYPOINT_COMMANDS : MAVCmd → WaypointCommandDefinition
  | .NAV_WAYPOINT => navWaypointDef
  | .NAV_TAKEOFF => navTakeoffDef
  | .NAV_LAND => navLandDef
  | .NAV_RETURN_TO_LAUNCH => navReturnToLaunchDef
  | .NAV_LOITER_TIME => navLoiterTimeDef
  | .NAV_LOITER_UNLIM => navLoiterUnlimDef
  | .DO_SET_ROI => doSetRoiDef
  | .DO_DIGICAM_CONTROL => doDigicamControlDef
  | .DO_CHANGE_SPEED => doChangeSpeedDef
  | .CONDITION_YAW => conditionYawDef

/-- Translated from `getCommandDefinition` (total here because the
record is total over `MAVCmd`). -/
def getCommandDefinition (command : MAVCmd) : Option WaypointCommandDefinition :=
  some (WAYPOINT_COMMANDS command)

/-- Translated from the `COLUMBIA_SC_SAFETY_LIMITS` constant. -/
structure ColumbiaSafetyLimits where
  maxAltitude : ℚ
  maxSpeed : ℚ
  minBatteryVoltage : ℚ
  maxWindSpeed : ℚ
  maxTemperature : ℚ
  minTemperature : ℚ
  maxFlightTime : ℚ
  emergencyRTLAltitude : ℚ
  geofenceRadius : ℚ
deriving DecidableEq, Repr

/-- Translated from `COLUMBIA_SC_SAFETY_LIMITS` in the waypoint-commands
module. -/
def COLUMBIA_SC_SAFETY_LIMITS : ColumbiaSafetyLimits :=
  { maxAltitude := 120
    maxSpeed := 25
    minBatteryVoltage := 22.0
    maxWindSpeed := 10
    maxTemperature := 50
    minTemperature := -10
    maxFlightTime := 25 * 60
    emergencyRTLAltitude := 60
    geofenceRadius := 32186.88 }

/-
Mission/Parameter Validator pipeline (spec §4.5).  `validateParameter`
above is the source's per-parameter check; the per-command loop and the
hand-off to the Dispatcher live in `MAVLinkService`, which is not among
the sources, and are modelled from the spec below.
-/

/-- A violated bound, reported with the offending limit. -/
inductive ViolatedBound where
  | belowMin (m : ℚ)
  | aboveMax (M : ℚ)
deriving DecidableEq, Repr

/-- The bound violated by `value` against `param`, if any; mirrors the
two tests of `validateParameter`. -/
def paramViolation (param : WaypointParameter) (value : JSNum) : Option ViolatedBound :=
  match param.min? with
  | some m =>
    if jsLT value m then some (.belowMin m)
    else
      match param.max? with
      | some M => if jsGT value M then some (.aboveMax M) else none
      | none => none
  | none =>
    match param.max? with
    | some M => if jsGT value M then some (.aboveMax M) else none
    | none => none

/-- Spec wording of claim C1: the submitted value is below a defined
`min` or above a defined `max`.  A `NaN` value is numerically neither
below nor above any bound. -/
def violatesDefinedBound (param : WaypointParameter) (value : JSNum) : Prop :=
  (∃ m q, param.min? = some m ∧ value = some q ∧ q < m) ∨
  (∃ M q, param.max? = some M ∧ value = some q ∧ M < q)

/-- Modelled from the spec: "for each of its 7 parameters, check against
the `CommandParameterSpec` min/max for that command; out-of-range values
are rejected with the offending parameter index and the violated bound"
(spec §4.5).  Returns the first violation, walking the parameters in
order. -/
def firstViolationIdx : List WaypointParameter → List JSNum → Option (ℕ × ViolatedBound)
  | [], _ => none
  | _ :: _, [] => none
  | p :: ps, v :: vs =>
    match paramViolation p v with
    | some b => some (0, b)
    | none => (firstViolationIdx ps vs).map (fun ib => (ib.1 + 1, ib.2))

/-- Modelled from the spec: the Mission/Parameter Validator checks a
candidate command's parameter values against its table entry and
reports the first violation (index and bound), or `none` when the
command is accepted (spec §4.5). -/
def validateCommand (d : WaypointCommandDefinition) (values : List JSNum) : Option (ℕ × ViolatedBound) :=
  firstViolationIdx d.params values

/-- Modelled from the spec: a command reaches the Command Dispatcher
exactly when the Mission/Parameter Validator accepts it (spec §2 data
flow, §4.5). -/
def reachesDispatcher (d : WaypointCommandDefinition) (values : List JSNum) : Bool :=
  (validateCommand d values).isNone

/-
Safety Monitor (spec §4.4).  The connection-loss → action mapping is in
the sources (`actionMap` inside `simulateConnectionLoss`,
`src/main.ts`); the heartbeat-driven state machine itself lives in
`MAVLinkService`, absent from the sources, and is modelled from the
spec.
-/

/-- The loss causes enumerated by the connection-loss scenarios in
`src/main.ts`. -/
inductive LossCause where
  | radio_link
  | data_link
  | gps_loss
  | low_battery
deriving DecidableEq, Repr

/-- The scenario key string `simulateConnectionLoss` is called with. -/
def lossCauseKey : LossCause → String
  | .radio_link => "radio_link"
  | .data_link => "data_link"
  | .gps_loss => "gps_loss"
  | .low_battery => "low_battery"

/-- Translated from the `actionMap` record inside
`simulateConnectionLoss` (`src/main.ts`): partial map from scenario key
to action name. -/
def actionMap (t : String) : Option String :=
  if t = "radio_link" then some "RTL"
  else if t = "data_link" then some "HOLD"
  else if t = "gps_loss" then some "LAND"
  else if t = "low_battery" then some "RTL"
  else none

/-- Translated from `simulateConnectionLoss` (`src/main.ts`): the
`safetyActionTaken` it resolves with, `actionMap[type] || 'HOLD'`. -/
def simulateConnectionLossAction (t : String) : String :=
  (actionMap t).getD "HOLD"

/-- The failsafe actions of the spec's data model (§3). -/
inductive FailsafeAction where
  | NONE
  | HOLD
  | RTL
  | LAND
deriving DecidableEq, Repr

/-- Display name of a failsafe action, for comparison with the string
values used by `src/main.ts`. -/
def failsafeActionName : FailsafeAction → String
  | .NONE => "none"
  | .HOLD => "HOLD"
  | .RTL => "RTL"
  | .LAND => "LAND"

/-- Modelled from the spec: the fixed loss-cause → failsafe-action
mapping (radio-link → RTL, data-link → HOLD, GPS loss → LAND, low
battery → RTL, spec §4.4); it agrees with the source's `actionMap`. -/
def failsafeFor : LossCause → FailsafeAction
  | .radio_link => .RTL
  | .data_link => .HOLD
  | .gps_loss => .LAND
  | .low_battery => .RTL

/-- Connection state of the spec's data model (§3). -/
inductive ConnState where
  | Connected
  | Degraded
  | Lost
deriving DecidableEq, Repr

/-- Modelled from the spec: Safety Monitor configuration
(`heartbeatIntervalMs`, `missedBeatThreshold`, `failsafeTimeoutMs`,
spec §6), plus the classified loss cause used on entering `Lost`. -/
structure SafetyConfig where
  heartbeatIntervalMs : ℕ
  missedBeatThreshold : ℕ
  failsafeTimeoutMs : ℕ
  lossCause : LossCause
deriving DecidableEq, Repr

/-- Safety Monitor state: connection classification and the arrival time
of the last valid heartbeat, in milliseconds. -/
structure MonitorState where
  conn : ConnState
  lastHeartbeatMs : ℕ
deriving DecidableEq, Repr

/-- Inputs of the Safety Monitor: a fresh valid heartbeat, or a
health-check tick, each carrying the current time in milliseconds. -/
inductive MonitorEvent where
  | heartbeat (timeMs : ℕ)
  | tick (timeMs : ℕ)
deriving DecidableEq, Repr

/-- Modelled from the spec: one Safety Monitor step (spec §4.4).  A
fresh heartbeat resets the state to `Connected`.  A tick drives the
state to `Lost` when the silence exceeds `failsafeTimeoutMs`, emitting
`failsafeTriggered` with the mapped action exactly on entry; it degrades
a `Connected` state after `heartbeatIntervalMs × missedBeatThreshold` of
silence. -/
def stepMonitor (cfg : SafetyConfig) (s : MonitorState) :
    MonitorEvent → MonitorState × List FailsafeAction
  | .heartbeat t => ({ conn := .Connected, lastHeartbeatMs := t }, [])
  | .tick t =>
    if s.lastHeartbeatMs + cfg.failsafeTimeoutMs < t then
      if s.conn = ConnState.Lost then (s, [])
      else ({ s with conn := .Lost }, [failsafeFor cfg.lossCause])
    else if s.conn = ConnState.Connected ∧
        s.lastHeartbeatMs + cfg.heartbeatIntervalMs * cfg.missedBeatThreshold < t then
      ({ s with conn := .Degraded }, [])
    else (s, [])

/-- Run the Safety Monitor over a sequence of events, collecting every
`failsafeTriggered` emission. -/
def runMonitor (cfg : SafetyConfig) :
    MonitorState → List MonitorEvent → MonitorState × List FailsafeAction
  | s, [] => (s, [])
  | s, e :: es =>
    let out := stepMonitor cfg s e
    let rest := runMonitor cfg out.1 es
    (rest.1, out.2 ++ rest.2)

/-- Configuration of the C2 witness run: defaults of spec §6 and a
radio-link loss cause. -/
def c2WitnessCfg : SafetyConfig :=
  ⟨1000, 3, 5000, LossCause.radio_link⟩

/-- Initial state of the C2 witness run: `Connected`, last heartbeat at
time 0. -/
def c2WitnessS0 : MonitorState :=
  ⟨ConnState.Connected, 0⟩

/-
Command Dispatcher rate limiter (spec §4.3).  The Dispatcher lives in
`MAVLinkService`, absent from the sources; the release scheduler below
is modelled from the spec.  Times are in milliseconds.
-/

/-- Translated from the configuration surface: default command-rate
ceiling in Hz (spec §6, `MAX_COMMAND_RATE` in the CI workflow). -/
def maxCommandRateHz : ℕ := 50

/-- Minimum spacing between sends implied by the rate ceiling
(1000 ms / 50 Hz = 20 ms, spec §4.3). -/
def minCommandIntervalMs : ℕ := 1000 / maxCommandRateHz

/-- A submitted command: its arrival time at the Dispatcher and the
deadline implied by its own retry budget (spec §4.3). -/
structure CommandSubmission where
  arrivalMs : ℕ
  deadlineMs : ℕ
deriving DecidableEq, Repr

/-- Modelled from the spec: the Dispatcher's release loop.  `nextFree`
is the earliest instant the rate limiter allows the next send.  A
command arriving before that instant is held until `nextFree` (not
dropped); it is dropped only when even its earliest permissible release
would exceed its own retry-budget deadline (spec §4.3).  Returns the
send times placed on the transport, in order. -/
def scheduleSends (minInterval : ℕ) : ℕ → List CommandSubmission → List ℕ
  | _, [] => []
  | nextFree, c :: rest =>
    if max c.arrivalMs nextFree ≤ c.deadlineMs then
      max c.arrivalMs nextFree ::
        scheduleSends minInterval (max c.arrivalMs nextFree + minInterval) rest
    else
      scheduleSends minInterval nextFree rest

/-
Command Dispatcher queue and the emergency-stop fast path (spec §4.3,
§4.4).  Modelled from the spec; only the test exercising the behaviour
is in the sources (`src/main.ts`, emergency-stop suite).
-/

/-- A queued command: whether it is an operator-triggered emergency stop
(disarm). -/
structure PendingCommand where
  commandId : ℕ
  isEmergency : Bool
deriving DecidableEq, Repr

/-- Translated from the spec: bounded queue size, default 64 entries
(spec §4.3). -/
def maxQueueSize : ℕ := 64

/-- Modelled from the spec: on a full queue the oldest non-critical
entry is dropped (spec §4.3). -/
def dropOldestNonCritical : List PendingCommand → List PendingCommand
  | [] => []
  | c :: rest =>
    if c.isEmergency then c :: dropOldestNonCritical rest else rest

/-- Modelled from the spec: enqueue on the Dispatcher queue.  An
emergency stop always enqueues at the head and bypasses the size limit;
a normal command appends, displacing the oldest non-critical entry when
the queue is full (spec §4.3). -/
def enqueueCommand (q : List PendingCommand) (c : PendingCommand) : List PendingCommand :=
  if c.isEmergency then c :: q
  else if q.length < maxQueueSize then q ++ [c]
  else dropOldestNonCritical q ++ [c]

/-- Modelled from the spec: the instant a command's bytes reach the
transport.  An emergency stop bypasses the rate limiter and is sent
immediately when the transport is idle; otherwise the send waits for
the rate limiter's `nextFree` instant (spec §4.4). -/
def dispatchTimeMs (c : PendingCommand) (enqueuedAtMs : ℕ) (transportIdle : Bool)
    (nextFree : ℕ) : ℕ :=
  if c.isEmergency && transportIdle then enqueuedAtMs
  else max enqueuedAtMs nextFree

/-- Modelled from the spec: retry budgets — a single retry for the
emergency stop, the default 3 otherwise (spec §4.3, §4.4, §6). -/
def retryBudget (c : PendingCommand) : ℕ :=
  if c.isEmergency then 1 else 3

/-
The `JSON.parse` startup override (translated from `src/main.ts`,
lines 19-31).
-/

/-- A coarse model of JavaScript values, sufficient to distinguish
strings from every other argument `JSON.parse` may receive.  Objects and
arrays are represented by a reference tag. -/
inductive JSValue where
  | null
  | undef
  | boolean (b : Bool)
  | number (n : JSNum)
  | str (s : String)
  | objectRef (id : ℕ)
  | arrayRef (id : ℕ)
deriving DecidableEq, Repr

/-- Whether a JavaScript value is a string (`typeof text === 'string'`). -/
def JSValue.isString : JSValue → Bool
  | .str _ => true
  | _ => false

/-- Outcome of the built-in `JSON.parse` on a string: a value, or a
thrown `SyntaxError`. -/
inductive ParseOutcome where
  | ok (v : JSValue)
  | thrown
deriving DecidableEq, Repr

/-- Translated from the `JSON.parse` override installed at startup in
`src/main.ts` (lines 19-31): a non-string argument is warned about and
returned unchanged; a string is handed to the original parser, and any
thrown error is caught and turned into `null`.  The function is total —
the model of "never throws". -/
def jsonParseOverride (originalJSONParse : String → ParseOutcome) (text : JSValue) : JSValue :=
  match text with
  | JSValue.str s =>
    match originalJSONParse s with
    | ParseOutcome.ok v => v
    | ParseOutcome.thrown => JSValue.null
  | other => other

/-
Frame Codec (spec §4.2, §6).  The codec lives in `MAVLinkService`,
absent from the sources; it is modelled from the spec's bit-exact wire
format: `0xFD | payload_len | incompat_flags | compat_flags | seq |
sysid | compid | msgid(3, little-endian) | payload | checksum(2,
CRC-X25)`.  Signing is disabled, so no signature block is produced.
Bytes are naturals; writers truncate with `% 256` as a `Uint8Array`
store would.
-/

namespace FrameCodec

/-- One step of the CRC-X25 (MCRF4XX) accumulator used by MAVLink:
16-bit state, low-byte xor, nibble folding. -/
def crcAccumulate (crc b : ℕ) : ℕ :=
  let tmp := (b ^^^ (crc % 256)) % 256
  let tmp2 := (tmp ^^^ ((tmp <<< 4) % 256)) % 256
  ((crc / 256) ^^^ (tmp2 <<< 8) ^^^ (tmp2 <<< 3) ^^^ (tmp2 >>> 4)) % 65536

/-- CRC-X25 over a byte list, initial value `0xFFFF`. -/
def crcX25 (bytes : List ℕ) : ℕ :=
  bytes.foldl crcAccumulate 0xFFFF

/-- A MAVLink v2 frame as in the spec's data model (§3).  The checksum
is computed by `encode` and validated by `decode`, so it is not stored;
signing is disabled, so no signature field. -/
structure Frame where
  incompatFlags : ℕ
  compatFlags : ℕ
  sequence : ℕ
  systemId : ℕ
  componentId : ℕ
  messageId : ℕ
  payload : List ℕ
deriving DecidableEq, Repr

/-- Header bytes after the start marker: payload length, flags,
sequence, system id, component id, and the 24-bit message id
little-endian (spec §6). -/
def headerBytes (f : Frame) : List ℕ :=
  [f.payload.length % 256, f.incompatFlags % 256, f.compatFlags % 256,
   f.sequence % 256, f.systemId % 256, f.componentId % 256,
   f.messageId % 256, f.messageId / 256 % 256, f.messageId / 65536 % 256]

/-- The frame's CRC-X25, computed over the header (which carries the
message id) and the payload bytes (spec §4.2, §6). -/
def frameCrc (f : Frame) : ℕ :=
  crcX25 (headerBytes f ++ f.payload.map (fun b => b % 256))

/-- Modelled from the spec: `encode` builds the start marker, header,
payload and the two checksum bytes, low byte first (spec §4.2, §6). -/
def encode (f : Frame) : List ℕ :=
  0xFD :: (headerBytes f ++ f.payload.map (fun b => b % 256) ++
    [frameCrc f % 256, frameCrc f / 256 % 256])

/-- The frame a decoder reconstructs from parsed header fields and
payload. -/
def rebuildFrame (ic cf sq sy cp m0 m1 m2 : ℕ) (payload : List ℕ) : Frame :=
  { incompatFlags := ic, compatFlags := cf, sequence := sq, systemId := sy,
    componentId := cp, messageId := m0 + 256 * m1 + 65536 * m2, payload := payload }

/-- Modelled from the spec: parse one frame body following a start
marker — read the declared length, check enough bytes are present,
recompute the CRC-X25 and compare it with the two transmitted checksum
bytes; a mismatch discards the frame (spec §4.2). -/
def decodeBody : List ℕ → Option Frame
  | len :: ic :: cf :: sq :: sy :: cp :: m0 :: m1 :: m2 :: rest =>
    if len + 2 ≤ rest.length then
      if (rest.drop len).take 2 =
          [frameCrc (rebuildFrame ic cf sq sy cp m0 m1 m2 (rest.take len)) % 256,
           frameCrc (rebuildFrame ic cf sq sy cp m0 m1 m2 (rest.take len)) / 256 % 256] then
        some (rebuildFrame ic cf sq sy cp m0 m1 m2 (rest.take len))
      else none
    else none
  | _ => none

/-- Modelled from the spec: `decode` scans the byte stream for the
`0xFD` start marker, then length-checks and checksum-validates the
frame that follows (spec §4.2). -/
def decode : List ℕ → Option Frame
  | [] => none
  | b :: rest => if b = 0xFD then decodeBody rest else decode rest

/-- Well-formedness of a frame: every header field fits its wire width,
the payload holds at most 255 bytes and its entries are bytes. -/
def WellFormed (f : Frame) : Prop :=
  f.incompatFlags < 256 ∧ f.compatFlags < 256 ∧ f.sequence < 256 ∧
  f.systemId < 256 ∧ f.componentId < 256 ∧ f.messageId < 16777216 ∧
  f.payload.length ≤ 255 ∧ ∀ b ∈ f.payload, b < 256

end FrameCodec

/-- A concrete well-formed frame for the C4 witness: a `COMMAND_LONG`
(message id 76) carrying a 4-byte payload. -/
def c4WitnessFrame : FrameCodec.Frame :=
  { incompatFlags := 0, compatFlags := 0, sequence := 7, systemId := 255,
    componentId := 190, messageId := 76, payload := [1, 2, 3, 4] }

/-
Geofence validation (spec §4.5, §6).  The geofence check lives in
`MAVLinkService`, absent from the sources, and is modelled from the
spec: great-circle distance from the configured center (haversine on the
mean Earth radius), rejected when beyond the radius or above the
altitude ceiling.  The radius and ceiling constants are the source's
`COLUMBIA_SC_SAFETY_LIMITS`.
-/

/-- Mean Earth radius in metres, the standard constant of the haversine
great-circle distance. -/
noncomputable def earthRadiusMeters : ℝ := 6371000

/-- Degrees to radians. -/
noncomputable def toRadians (deg : ℝ) : ℝ := deg * Real.pi / 180

/-- Modelled from the spec: great-circle distance in metres between two
latitude/longitude points, by the haversine formula (spec §4.5
"compute great-circle distance from `GeofenceConfig.centerLat/centerLon`"). -/
noncomputable def haversineDistance (lat1 lon1 lat2 lon2 : ℝ) : ℝ :=
  2 * earthRadiusMeters * Real.arcsin (Real.sqrt (
    Real.sin (toRadians (lat2 - lat1) / 2) ^ 2 +
    Real.cos (toRadians lat1) * Real.cos (toRadians lat2) *
      Real.sin (toRadians (lon2 - lon1) / 2) ^ 2))

/-- The spec's `GeofenceConfig` data model (§3). -/
structure GeofenceConfig where
  centerLat : ℝ
  centerLon : ℝ
  radiusMeters : ℝ
  maxAltitudeMeters : ℝ

/-- Rejection reasons of the geofence check. -/
inductive GeofenceReason where
  | outsideRadius
  | altitudeExceeded
deriving DecidableEq, Repr

open Classical in
/-- Modelled from the spec: "reject if distance exceeds `radiusMeters`
or altitude exceeds `maxAltitudeMeters`" (spec §4.5), reporting which
bound was violated. -/
noncomputable def validateWaypointGeofence (lat lon alt : ℝ) (gf : GeofenceConfig) :
    Option GeofenceReason :=
  if haversineDistance lat lon gf.centerLat gf.centerLon > gf.radiusMeters then
    some GeofenceReason.outsideRadius
  else if alt > gf.maxAltitudeMeters then
    some GeofenceReason.altitudeExceeded
  else none

/-- The geofence of the C5 scenario: center (34.0, -81.0) as given by
the spec scenario, radius and altitude ceiling taken from the source's
`COLUMBIA_SC_SAFETY_LIMITS`. -/
noncomputable def columbiaGeofence : GeofenceConfig :=
  { centerLat := 34
    centerLon := -81
    radiusMeters := (COLUMBIA_SC_SAFETY_LIMITS.geofenceRadius : ℝ)
    maxAltitudeMeters := (COLUMBIA_SC_SAFETY_LIMITS.maxAltitude : ℝ) }

theorem validateParameter_false_iff_paramViolation (param : WaypointParameter) (value : JSNum) :
    validateParameter param value = false ↔ (paramViolation param value).isSome := by
  unfold validateParameter minDefinedAndBelow maxDefinedAndAbove paramViolation
  rcases hmin : param.min? with _ | m <;> rcases hmax : param.max? with _ | M <;>
    simp <;> by_cases h1 : jsLT value m <;> by_cases h2 : jsGT value M <;> simp_all

theorem validateParameter_false_iff_violates (param : WaypointParameter) (value : JSNum) :
    validateParameter param value = false ↔ violatesDefinedBound param value := by
  unfold validateParameter minDefinedAndBelow maxDefinedAndAbove violatesDefinedBound jsLT jsGT
  rcases hmin : param.min? with _ | m <;> rcases hmax : param.max? with _ | M <;>
    rcases hv : value with _ | q <;> simp_all <;> by_cases h1 : q < m <;> simp_all

theorem firstViolationIdx_isSome_of_mem :
    ∀ (ps : List WaypointParameter) (vs : List JSNum) (i : ℕ)
      (p : WaypointParameter) (v : JSNum),
      ps.get? i = some p → vs.get? i = some v → (paramViolation p v).isSome →
      (firstViolationIdx ps vs).isSome := by
  intro ps
  induction ps with
  | nil => intro vs i p v hp _ _; simp at hp
  | cons q qs ih =>
    intro vs i p v hp hv hviol
    cases vs with
    | nil => simp at hv
    | cons w ws =>
      cases i with
      | zero =>
        simp only [List.get?] at hp hv
        cases hp; cases hv
        unfold firstViolationIdx
        rcases h : paramViolation q v with _ | b
        · simp [h] at hviol
        · simp
      | succ j =>
        simp only [List.get?] at hp hv
        unfold firstViolationIdx
        rcases h : paramViolation q w with _ | b
        · have := ih ws j p v hp hv hviol
          simp [Option.isSome_map]
          simpa using this
        · simp

theorem firstViolationIdx_spec {ps : List WaypointParameter} {vs : List JSNum}
    {j : ℕ} {b : ViolatedBound}
    (h : firstViolationIdx ps vs = some (j, b)) :
    (∃ q w, ps.get? j = some q ∧ vs.get? j = some w ∧ paramViolation q w = some b) ∧
    (∀ k, k < j → ∀ q w, ps.get? k = some q → vs.get? k = some w → paramViolation q w = none) := by
  induction ps generalizing vs j with
  | nil => simp [firstViolationIdx] at h
  | cons p rest ih =>
    cases vs with
    | nil => simp [firstViolationIdx] at h
    | cons v ws =>
      unfold firstViolationIdx at h
      rcases hpv : paramViolation p v with _ | b0
      · rw [hpv] at h
        simp only [Option.map_eq_some'] at h
        obtain ⟨⟨j', b'⟩, hrec, heq⟩ := h
        obtain ⟨hj, hb⟩ : j' + 1 = j ∧ b' = b := by
          constructor <;> [exact congrArg Prod.fst heq; exact congrArg Prod.snd heq]
        subst hb
        obtain ⟨⟨q, w, hq, hw, hqw⟩, hmin⟩ := ih hrec
        constructor
        · exact ⟨q, w, by simpa [← hj] using hq, by simpa [← hj] using hw, hqw⟩
        · intro k hk q' w' hq' hw'
          cases k with
          | zero =>
            simp only [List.get?] at hq' hw'
            cases hq'; cases hw'
            exact hpv
          | succ k' =>
            simp only [List.get?] at hq' hw'
            exact hmin k' (by omega) q' w' hq' hw'
      · rw [hpv] at h
        simp only [Option.some.injEq] at h
        obtain ⟨hj, hb⟩ : (0 : ℕ) = j ∧ b0 = b := by
          constructor <;> [exact congrArg Prod.fst h; exact congrArg Prod.snd h]
        subst hb
        constructor
        · exact ⟨p, v, by simp [← hj], by simp [← hj], hpv⟩
        · intro k hk; omega

/-- C1: a submitted parameter value below a defined min or above a
defined max makes `validateParameter` return `false` — and exactly then —
and a command carrying such a value at any index is rejected by the
validator and never reaches the Dispatcher. -/
theorem C1_parameter_bounds_reject :
    (∀ (param : WaypointParameter) (value : JSNum),
        validateParameter param value = false ↔ violatesDefinedBound param value) ∧
    (∀ (cmd : MAVCmd) (values : List JSNum) (i : ℕ) (p : WaypointParameter) (v : JSNum),
        (WAYPOINT_COMMANDS cmd).params.get? i = some p →
        values.get? i = some v →
        validateParameter p v = false →
        reachesDispatcher (WAYPOINT_COMMANDS cmd) values = false) := by
  refine ⟨validateParameter_false_iff_violates, ?_⟩
  intro cmd values i p v hp hv hval
  have hsome : (firstViolationIdx (WAYPOINT_COMMANDS cmd).params values).isSome :=
    firstViolationIdx_isSome_of_mem _ values i p v hp hv
      ((validateParameter_false_iff_paramViolation p v).mp hval)
  unfold reachesDispatcher validateCommand
  rcases h : firstViolationIdx (WAYPOINT_COMMANDS cmd).params values with _ | ib
  · rw [h] at hsome; simp at hsome
  · simp

/-- Witness for C1: a `NAV_TAKEOFF` whose altitude parameter (index 6,
minimum 1) is 0 never reaches the Dispatcher. -/
theorem C1_parameter_bounds_reject_witness :
    reachesDispatcher (WAYPOINT_COMMANDS MAVCmd.NAV_TAKEOFF)
      [some 0, some 0, some 0, some 0, some 0, some 0, some 0] = false :=
  C1_parameter_bounds_reject.2 MAVCmd.NAV_TAKEOFF
    [some 0, some 0, some 0, some 0, some 0, some 0, some 0] 6
    { name := "Altitude", min? := some 1, max? := some 1000, default := some 10 }
    (some 0) (by decide) (by decide) (by decide)

/-- C6: a single out-of-range parameter rejects the whole command before
it reaches the Dispatcher, and the reported violation is the first one:
its index is least, it carries the violated bound, and every earlier
parameter passes validation. -/
theorem C6_first_violation_rejects_whole_command :
    ∀ (d : WaypointCommandDefinition) (values : List JSNum) (i : ℕ)
      (p : WaypointParameter) (v : JSNum),
      d.params.get? i = some p → values.get? i = some v →
      validateParameter p v = false →
      ∃ j b, validateCommand d values = some (j, b) ∧ j ≤ i ∧
        reachesDispatcher d values = false ∧
        (∃ q w, d.params.get? j = some q ∧ values.get? j = some w ∧
          paramViolation q w = some b) ∧
        (∀ k, k < j → ∀ q w, d.params.get? k = some q → values.get? k = some w →
          validateParameter q w = true) := by
  intro d values i p v hp hv hval
  have hpv : (paramViolation p v).isSome :=
    (validateParameter_false_iff_paramViolation p v).mp hval
  have hsome : (firstViolationIdx d.params values).isSome :=
    firstViolationIdx_isSome_of_mem d.params values i p v hp hv hpv
  rcases h : firstViolationIdx d.params values with _ | ⟨j, b⟩
  · rw [h] at hsome; simp at hsome
  · obtain ⟨hhit, hmin⟩ := firstViolationIdx_spec h
    refine ⟨j, b, h, ?_, ?_, hhit, ?_⟩
    · by_contra hij
      have : paramViolation p v = none := hmin i (by omega) p v hp hv
      rw [this] at hpv; simp at hpv
    · unfold reachesDispatcher validateCommand
      rw [h]; simp
    · intro k hk q w hq hw
      have hnone : paramViolation q w = none := hmin k hk q w hq hw
      rcases hb : validateParameter q w with _ | _
      · have := (validateParameter_false_iff_paramViolation q w).mp hb
        rw [hnone] at this; simp at this
      · rfl

/-- Witness for C6: a `NAV_WAYPOINT` with violations at indices 2 and 3
is rejected with the index-2 violation reported first. -/
theorem C6_first_violation_rejects_whole_command_witness :
    ∃ j b, validateCommand navWaypointDef
        [some 0, some 0, some 5, some 200, some 0, some 0, some 0] = some (j, b) ∧ j ≤ 3 ∧
      reachesDispatcher navWaypointDef
        [some 0, some 0, some 5, some 200, some 0, some 0, some 0] = false ∧
      (∃ q w, navWaypointDef.params.get? j = some q ∧
        [some 0, some 0, some 5, some 200, some 0, some 0, some 0].get? j = some w ∧
        paramViolation q w = some b) ∧
      (∀ k, k < j → ∀ q w, navWaypointDef.params.get? k = some q →
        [some 0, some 0, some 5, some 200, some 0, some 0, some 0].get? k = some w →
        validateParameter q w = true) :=
  C6_first_violation_rejects_whole_command navWaypointDef
    [some 0, some 0, some 5, some 200, some 0, some 0, some 0] 3
    { name := "Desired Yaw", min? := some (-180), max? := some 180, default := none }
    (some 200) (by decide) (by decide) (by decide)

/-- C8: a `NaN` value passes `validateParameter` for every parameter,
whatever bounds it declares, because both JavaScript comparisons are
`false` on `NaN`. -/
theorem C8_nan_passes_validation :
    ∀ param : WaypointParameter, validateParameter param none = true := by
  intro param
  unfold validateParameter minDefinedAndBelow maxDefinedAndAbove jsLT jsGT
  rcases param.min? with _ | m <;> rcases param.max? with _ | M <;> simp

/-- C9: every parameter default in the `WAYPOINT_COMMANDS` table passes
its own bounds check, the `NaN` defaults of the yaw/heading parameters
included. -/
theorem C9_defaults_pass_validation :
    ∀ (cmd : MAVCmd) (p : WaypointParameter),
      p ∈ (WAYPOINT_COMMANDS cmd).params → validateParameter p p.default = true := by
  decide

/-- Witness for C9: the `NAV_WAYPOINT` Desired Yaw parameter, whose
default is `NaN`, passes its own bounds check. -/
theorem C9_defaults_pass_validation_witness :
    ({ name := "Desired Yaw", min? := some (-180), max? := some 180, default := none } : WaypointParameter) ∈
        (WAYPOINT_COMMANDS MAVCmd.NAV_WAYPOINT).params ∧
      validateParameter
        { name := "Desired Yaw", min? := some (-180), max? := some 180, default := none }
        (WaypointParameter.default
          { name := "Desired Yaw", min? := some (-180), max? := some 180, default := none }) = true :=
  ⟨by decide, C9_defaults_pass_validation MAVCmd.NAV_WAYPOINT _ (by decide)⟩

theorem runMonitor_ticks_lastHeartbeat (cfg : SafetyConfig) :
    ∀ (ts : List ℕ) (s : MonitorState),
      (runMonitor cfg s (ts.map MonitorEvent.tick)).1.lastHeartbeatMs = s.lastHeartbeatMs := by
  intro ts
  induction ts with
  | nil => intro s; rfl
  | cons t ts ih =>
    intro s
    simp only [List.map_cons, runMonitor]
    rw [ih]
    unfold stepMonitor
    by_cases h1 : s.lastHeartbeatMs + cfg.failsafeTimeoutMs < t
    · by_cases h2 : s.conn = ConnState.Lost <;> simp [h1, h2]
    · by_cases h2 : s.conn = ConnState.Connected ∧
          s.lastHeartbeatMs + cfg.heartbeatIntervalMs * cfg.missedBeatThreshold < t <;>
        simp [h1, h2]

theorem runMonitor_ticks_from_lost (cfg : SafetyConfig) :
    ∀ (ts : List ℕ) (s : MonitorState), s.conn = ConnState.Lost →
      (runMonitor cfg s (ts.map MonitorEvent.tick)).1 = s ∧
      (runMonitor cfg s (ts.map MonitorEvent.tick)).2 = [] := by
  intro ts
  induction ts with
  | nil => intro s _; exact ⟨rfl, rfl⟩
  | cons t ts ih =>
    intro s hs
    have hstep : stepMonitor cfg s (MonitorEvent.tick t) = (s, []) := by
      unfold stepMonitor
      by_cases h1 : s.lastHeartbeatMs + cfg.failsafeTimeoutMs < t
      · simp [h1, hs]
      · simp [h1, hs]
    simp only [List.map_cons, runMonitor, hstep]
    obtain ⟨h1, h2⟩ := ih s hs
    exact ⟨h1, by simp [h2]⟩

theorem runMonitor_ticks_loss (cfg : SafetyConfig) :
    ∀ (ts : List ℕ) (s : MonitorState), s.conn ≠ ConnState.Lost →
      (∃ t ∈ ts, s.lastHeartbeatMs + cfg.failsafeTimeoutMs < t) →
      (runMonitor cfg s (ts.map MonitorEvent.tick)).1.conn = ConnState.Lost ∧
      (runMonitor cfg s (ts.map MonitorEvent.tick)).2 = [failsafeFor cfg.lossCause] := by
  intro ts
  induction ts with
  | nil => intro s _ h; simp at h
  | cons t ts ih =>
    intro s hs hex
    simp only [List.map_cons, runMonitor]
    by_cases h1 : s.lastHeartbeatMs + cfg.failsafeTimeoutMs < t
    · have hstep : stepMonitor cfg s (MonitorEvent.tick t) =
          ({ s with conn := .Lost }, [failsafeFor cfg.lossCause]) := by
        unfold stepMonitor
        simp [h1, hs]
      rw [hstep]
      obtain ⟨hfix, hnil⟩ := runMonitor_ticks_from_lost cfg ts { s with conn := .Lost } rfl
      rw [hfix, hnil]
      exact ⟨rfl, by simp⟩
    · have hstay : (stepMonitor cfg s (MonitorEvent.tick t)).2 = [] ∧
          (stepMonitor cfg s (MonitorEvent.tick t)).1.conn ≠ ConnState.Lost ∧
          (stepMonitor cfg s (MonitorEvent.tick t)).1.lastHeartbeatMs = s.lastHeartbeatMs := by
        unfold stepMonitor
        by_cases h2 : s.conn = ConnState.Connected ∧
            s.lastHeartbeatMs + cfg.heartbeatIntervalMs * cfg.missedBeatThreshold < t <;>
          simp [h1, h2, hs]
      obtain ⟨hout, hconn, hlast⟩ := hstay
      obtain ⟨t', ht', hcross⟩ := hex
      rcases List.mem_cons.mp ht' with heq | hmem
      · subst heq; omega
      · have := ih (stepMonitor cfg s (MonitorEvent.tick t)).1 hconn
          ⟨t', hmem, by rw [hlast]; exact hcross⟩
        exact ⟨this.1, by rw [hout]; simpa using this.2⟩

/-- C2: with the 5000 ms failsafe timeout, any run of health-check ticks
with no heartbeat in which some tick finds more than 5000 ms of silence
after a `Connected` state drives the connection to `Lost` and emits
exactly one `failsafeTriggered` event, whose action follows the fixed
loss-cause mapping (radio-link → RTL, data-link → HOLD, GPS loss → LAND,
low battery → RTL), the same mapping the source's `actionMap` realizes. -/
theorem C2_heartbeat_loss_single_failsafe :
    (∀ (cfg : SafetyConfig) (s : MonitorState) (ts : List ℕ),
        cfg.failsafeTimeoutMs = 5000 → s.conn = ConnState.Connected →
        (∃ t ∈ ts, s.lastHeartbeatMs + 5000 < t) →
        (runMonitor cfg s (ts.map MonitorEvent.tick)).1.conn = ConnState.Lost ∧
        (runMonitor cfg s (ts.map MonitorEvent.tick)).2 = [failsafeFor cfg.lossCause]) ∧
    failsafeFor .radio_link = .RTL ∧ failsafeFor .data_link = .HOLD ∧
    failsafeFor .gps_loss = .LAND ∧ failsafeFor .low_battery = .RTL ∧
    (∀ c : LossCause,
        simulateConnectionLossAction (lossCauseKey c) = failsafeActionName (failsafeFor c)) := by
  refine ⟨?_, rfl, rfl, rfl, rfl, fun c => by cases c <;> rfl⟩
  intro cfg s ts htimeout hconn hex
  exact runMonitor_ticks_loss cfg ts s (by rw [hconn]; decide) (by rw [htimeout]; exact hex)

/-- Witness for C2: silence from time 0, one tick at 6000 ms, radio-link
cause: state `Lost` and exactly the single event `RTL`. -/
theorem C2_heartbeat_loss_single_failsafe_witness :
    (runMonitor c2WitnessCfg c2WitnessS0 ([6000].map MonitorEvent.tick)).1.conn
        = ConnState.Lost ∧
    (runMonitor c2WitnessCfg c2WitnessS0 ([6000].map MonitorEvent.tick)).2
        = [FailsafeAction.RTL] :=
  C2_heartbeat_loss_single_failsafe.1 c2WitnessCfg c2WitnessS0 [6000]
    rfl rfl ⟨6000, by decide, by decide⟩

theorem scheduleSends_ge (minInterval : ℕ) :
    ∀ (cs : List CommandSubmission) (nextFree : ℕ),
      ∀ x ∈ scheduleSends minInterval nextFree cs, nextFree ≤ x := by
  intro cs
  induction cs with
  | nil => intro nextFree x hx; simp [scheduleSends] at hx
  | cons c rest ih =>
    intro nextFree x hx
    unfold scheduleSends at hx
    by_cases h : max c.arrivalMs nextFree ≤ c.deadlineMs
    · rw [if_pos h] at hx
      rcases List.mem_cons.mp hx with heq | hmem
      · subst heq; exact le_max_right _ _
      · have := ih (max c.arrivalMs nextFree + minInterval) x hmem
        omega
    · rw [if_neg h] at hx
      exact ih nextFree x hx

theorem scheduleSends_chain (minInterval : ℕ) :
    ∀ (cs : List CommandSubmission) (nextFree : ℕ),
      List.Chain' (fun a b => a + minInterval ≤ b)
        (scheduleSends minInterval nextFree cs) := by
  intro cs
  induction cs with
  | nil => intro nextFree; simp [scheduleSends]
  | cons c rest ih =>
    intro nextFree
    unfold scheduleSends
    by_cases h : max c.arrivalMs nextFree ≤ c.deadlineMs
    · rw [if_pos h]
      refine List.chain'_cons'.mpr ⟨?_, ih _⟩
      intro y hy
      have := scheduleSends_ge minInterval rest (max c.arrivalMs nextFree + minInterval) y
        (List.mem_of_mem_head? hy)
      omega
    · rw [if_neg h]
      exact ih nextFree

theorem countP_le_countP_of_imp {α : Type} (p q : α → Bool) :
    ∀ l : List α, (∀ x ∈ l, p x = true → q x = true) → l.countP p ≤ l.countP q := by
  intro l
  induction l with
  | nil => intro _; simp
  | cons x xs ih =>
    intro h
    rw [List.countP_cons, List.countP_cons]
    have hxs := ih (fun y hy => h y (List.mem_cons_of_mem x hy))
    by_cases hp : p x = true
    · have hq := h x (List.mem_cons_self x xs) hp
      simp [hp, hq]; omega
    · simp only [Bool.not_eq_true] at hp
      simp [hp]
      by_cases hq : q x = true <;> simp [hq] <;> omega

theorem chain_head_le {d : ℕ} :
    ∀ (x : ℕ) (xs : List ℕ), List.Chain' (fun a b => a + d ≤ b) (x :: xs) →
      ∀ y ∈ xs, x + d ≤ y := by
  intro x xs
  induction xs generalizing x with
  | nil => intro _ y hy; simp at hy
  | cons z zs ih =>
    intro hchain y hy
    have hxz : x + d ≤ z := List.chain'_cons.mp hchain |>.1
    have hrest : List.Chain' (fun a b => a + d ≤ b) (z :: zs) :=
      List.chain'_cons.mp hchain |>.2
    rcases List.mem_cons.mp hy with heq | hmem
    · subst heq; exact hxz
    · have := ih z hrest y hmem
      omega

theorem chain_gap_window_count {d : ℕ} :
    ∀ (l : List ℕ) (t k : ℕ), List.Chain' (fun a b => a + d ≤ b) l →
      l.countP (fun x => decide (t ≤ x) && decide (x < t + k * d)) ≤ k := by
  intro l
  induction l with
  | nil => intro t k _; simp
  | cons x xs ih =>
    intro t k hchain
    have hxs : List.Chain' (fun a b => a + d ≤ b) xs := hchain.tail
    have hhead := chain_head_le x xs hchain
    rw [List.countP_cons]
    by_cases hin : (t ≤ x ∧ x < t + k * d)
    · have hk : 1 ≤ k := by
        rcases Nat.eq_zero_or_pos k with hk0 | hk1
        · exfalso; rw [hk0] at hin; omega
        · exact hk1
      have hkd : t + k * d = (t + d) + (k - 1) * d := by
        rcases Nat.exists_eq_add_of_le hk with ⟨m, hm⟩
        subst hm
        have h1m : 1 + m - 1 = m := by omega
        rw [h1m, Nat.add_mul, Nat.one_mul]
        omega
      have hmono : xs.countP (fun y => decide (t ≤ y) && decide (y < t + k * d)) ≤
          xs.countP (fun y => decide (t + d ≤ y) && decide (y < (t + d) + (k - 1) * d)) := by
        refine countP_le_countP_of_imp _ _ xs ?_
        intro y hy hp
        have hgap := hhead y hy
        simp only [Bool.and_eq_true, decide_eq_true_eq] at hp ⊢
        omega
      have hrec := ih (t + d) (k - 1) hxs
      have hcond : (decide (t ≤ x) && decide (x < t + k * d)) = true := by
        simp only [Bool.and_eq_true, decide_eq_true_eq]
        exact hin
      rw [hcond]
      simp only [if_true]
      omega
    · have hcond : (decide (t ≤ x) && decide (x < t + k * d)) = false := by
        rcases Decidable.not_and_iff_or_not.mp hin with hc | hc <;>
          simp [hc]
      rw [hcond]
      simpa using ih t k hchain.tail

theorem scheduleSends_no_drop (minInterval : ℕ) :
    ∀ (cs : List CommandSubmission) (nextFree B : ℕ), nextFree ≤ B →
      (∀ c ∈ cs, c.arrivalMs ≤ B) →
      (∀ c ∈ cs, B + minInterval * cs.length ≤ c.deadlineMs) →
      (scheduleSends minInterval nextFree cs).length = cs.length := by
  intro cs
  induction cs with
  | nil => intro nextFree B _ _ _; rfl
  | cons c rest ih =>
    intro nextFree B hnf harr hdl
    have hcB : c.arrivalMs ≤ B := harr c (List.mem_cons_self c rest)
    have hcD : B + minInterval * (rest.length + 1) ≤ c.deadlineMs := by
      simpa using hdl c (List.mem_cons_self c rest)
    have hrel : max c.arrivalMs nextFree ≤ c.deadlineMs := by
      have h1 : max c.arrivalMs nextFree ≤ B := max_le hcB hnf
      omega
    unfold scheduleSends
    rw [if_pos hrel]
    simp only [List.length_cons, Nat.add_right_cancel_iff]
    refine ih (max c.arrivalMs nextFree + minInterval) (B + minInterval) ?_ ?_ ?_
    · have : max c.arrivalMs nextFree ≤ B := max_le hcB hnf
      omega
    · intro c' hc'
      have := harr c' (List.mem_cons_of_mem c hc')
      omega
    · intro c' hc'
      have := hdl c' (List.mem_cons_of_mem c hc')
      simp only [List.length_cons] at this
      have hexp : minInterval * (rest.length + 1) = minInterval + minInterval * rest.length := by
        rw [Nat.mul_add, Nat.mul_one]; omega
      omega

/-- C3: the Dispatcher's release scheduler places at most
`maxCommandRateHz` (50) sends on the transport in any 1000 ms window,
spaces consecutive sends by at least `minCommandIntervalMs` (20 ms), and
never drops a command whose deadline accommodates its earliest
permissible release — early arrivals are only held. -/
theorem C3_rate_limit_enforced :
    (∀ (subs : List CommandSubmission) (nextFree t : ℕ),
        (scheduleSends minCommandIntervalMs nextFree subs).countP
          (fun x => decide (t ≤ x) && decide (x < t + 1000)) ≤ maxCommandRateHz) ∧
    (∀ (subs : List CommandSubmission) (nextFree : ℕ),
        List.Chain' (fun a b => a + minCommandIntervalMs ≤ b)
          (scheduleSends minCommandIntervalMs nextFree subs)) ∧
    (∀ (subs : List CommandSubmission) (nextFree B : ℕ), nextFree ≤ B →
        (∀ c ∈ subs, c.arrivalMs ≤ B) →
        (∀ c ∈ subs, B + minCommandIntervalMs * subs.length ≤ c.deadlineMs) →
        (scheduleSends minCommandIntervalMs nextFree subs).length = subs.length) := by
  refine ⟨?_, scheduleSends_chain minCommandIntervalMs, scheduleSends_no_drop minCommandIntervalMs⟩
  intro subs nextFree t
  have h1000 : (1000 : ℕ) = maxCommandRateHz * minCommandIntervalMs := by decide
  rw [h1000]
  exact chain_gap_window_count (scheduleSends minCommandIntervalMs nextFree subs) t
    maxCommandRateHz (scheduleSends_chain minCommandIntervalMs subs nextFree)

/-- Witness for C3: three back-to-back submissions at time 0 with ample
deadlines are all sent — the window count, the 20 ms chain and the
no-drop count at a concrete run. -/
theorem C3_rate_limit_enforced_witness :
    (scheduleSends minCommandIntervalMs 0
        [⟨0, 100⟩, ⟨0, 100⟩, ⟨0, 100⟩]).countP
      (fun x => decide (0 ≤ x) && decide (x < 0 + 1000)) ≤ maxCommandRateHz ∧
    List.Chain' (fun a b => a + minCommandIntervalMs ≤ b)
      (scheduleSends minCommandIntervalMs 0 [⟨0, 100⟩, ⟨0, 100⟩, ⟨0, 100⟩]) ∧
    (scheduleSends minCommandIntervalMs 0 [⟨0, 100⟩, ⟨0, 100⟩, ⟨0, 100⟩]).length =
      ([⟨0, 100⟩, ⟨0, 100⟩, ⟨0, 100⟩] : List CommandSubmission).length :=
  ⟨C3_rate_limit_enforced.1 [⟨0, 100⟩, ⟨0, 100⟩, ⟨0, 100⟩] 0 0,
   C3_rate_limit_enforced.2.1 [⟨0, 100⟩, ⟨0, 100⟩, ⟨0, 100⟩] 0,
   C3_rate_limit_enforced.2.2 [⟨0, 100⟩, ⟨0, 100⟩, ⟨0, 100⟩] 0 0
     (by decide) (by decide) (by decide)⟩

/-- C7: an operator-triggered emergency stop goes to the head of the
Dispatcher queue, bypasses the queue size limit, is dispatched with zero
model latency (< 50 ms) when the transport is idle because it bypasses
the rate limiter, and carries a single-retry budget. -/
theorem C7_emergency_stop_fast_path :
    ∀ (q : List PendingCommand) (c : PendingCommand) (enqueuedAtMs nextFree : ℕ),
      c.isEmergency = true →
      (enqueueCommand q c).head? = some c ∧
      (enqueueCommand q c).length = q.length + 1 ∧
      dispatchTimeMs c enqueuedAtMs true nextFree - enqueuedAtMs = 0 ∧
      dispatchTimeMs c enqueuedAtMs true nextFree - enqueuedAtMs < 50 ∧
      retryBudget c = 1 := by
  intro q c enqueuedAtMs nextFree hc
  unfold enqueueCommand dispatchTimeMs retryBudget
  rw [hc]
  simp

/-- Witness for C7: an emergency stop enqueued on a queue already
holding one command, with the transport idle. -/
theorem C7_emergency_stop_fast_path_witness :
    (enqueueCommand [⟨1, false⟩] ⟨2, true⟩).head? = some ⟨2, true⟩ ∧
    (enqueueCommand [⟨1, false⟩] ⟨2, true⟩).length = [(⟨1, false⟩ : PendingCommand)].length + 1 ∧
    dispatchTimeMs ⟨2, true⟩ 100 true 300 - 100 = 0 ∧
    dispatchTimeMs ⟨2, true⟩ 100 true 300 - 100 < 50 ∧
    retryBudget ⟨2, true⟩ = 1 :=
  C7_emergency_stop_fast_path [⟨1, false⟩] ⟨2, true⟩ 100 300 rfl

/-- C10: after the startup override, `JSON.parse` never throws — every
non-string argument is returned unchanged, and every string the original
parser rejects yields `null`. -/
theorem C10_json_parse_override_total :
    ∀ originalJSONParse : String → ParseOutcome,
      (∀ v : JSValue, v.isString = false →
        jsonParseOverride originalJSONParse v = v) ∧
      (∀ s : String, originalJSONParse s = ParseOutcome.thrown →
        jsonParseOverride originalJSONParse (JSValue.str s) = JSValue.null) := by
  intro originalJSONParse
  constructor
  · intro v hv
    cases v <;> first | rfl | simp [JSValue.isString] at hv
  · intro s hs
    simp [jsonParseOverride, hs]

/-- Witness for C10: a parser that rejects everything — `null` (a
non-string) comes back unchanged, and the rejected string `"{"` maps to
`null`. -/
theorem C10_json_parse_override_total_witness :
    jsonParseOverride (fun _ => ParseOutcome.thrown) JSValue.null = JSValue.null ∧
    jsonParseOverride (fun _ => ParseOutcome.thrown) (JSValue.str "x") = JSValue.null :=
  ⟨(C10_json_parse_override_total (fun _ => ParseOutcome.thrown)).1 JSValue.null rfl,
   (C10_json_parse_override_total (fun _ => ParseOutcome.thrown)).2 "x" rfl⟩

theorem FrameCodec.decodeBody_cons (len ic cf sq sy cp m0 m1 m2 : ℕ) (rest : List ℕ) :
    decodeBody (len :: ic :: cf :: sq :: sy :: cp :: m0 :: m1 :: m2 :: rest) =
      if len + 2 ≤ rest.length then
        if (rest.drop len).take 2 =
            [frameCrc (rebuildFrame ic cf sq sy cp m0 m1 m2 (rest.take len)) % 256,
             frameCrc (rebuildFrame ic cf sq sy cp m0 m1 m2 (rest.take len)) / 256 % 256] then
          some (rebuildFrame ic cf sq sy cp m0 m1 m2 (rest.take len))
        else none
      else none := rfl

/-- C4: decoding the byte stream produced by encoding any well-formed
frame — the MAVLink v2 header, payload and CRC-X25 checksum — yields the
frame back unchanged. -/
theorem C4_codec_round_trip (f : FrameCodec.Frame) (h : FrameCodec.WellFormed f) :
    FrameCodec.decode (FrameCodec.encode f) = some f := by
  obtain ⟨hic, hcf, hsq, hsy, hcp, hmid, hplen, hpbytes⟩ := h
  have hmap : f.payload.map (fun b => b % 256) = f.payload := by
    have hall : ∀ b ∈ f.payload, b % 256 = b := fun b hb => Nat.mod_eq_of_lt (hpbytes b hb)
    calc f.payload.map (fun b => b % 256) = f.payload.map id := List.map_congr_left hall
    _ = f.payload := List.map_id f.payload
  have hlen : f.payload.length % 256 = f.payload.length := Nat.mod_eq_of_lt (by omega)
  have hdr : FrameCodec.headerBytes f =
      [f.payload.length, f.incompatFlags, f.compatFlags, f.sequence, f.systemId,
       f.componentId, f.messageId % 256, f.messageId / 256 % 256, f.messageId / 65536 % 256] := by
    unfold FrameCodec.headerBytes
    rw [hlen, Nat.mod_eq_of_lt hic, Nat.mod_eq_of_lt hcf, Nat.mod_eq_of_lt hsq,
      Nat.mod_eq_of_lt hsy, Nat.mod_eq_of_lt hcp]
  have hfr : FrameCodec.rebuildFrame f.incompatFlags f.compatFlags f.sequence f.systemId
      f.componentId (f.messageId % 256) (f.messageId / 256 % 256) (f.messageId / 65536 % 256)
      f.payload = f := by
    unfold FrameCodec.rebuildFrame
    have hm : f.messageId % 256 + 256 * (f.messageId / 256 % 256) +
        65536 * (f.messageId / 65536 % 256) = f.messageId := by omega
    rw [hm]
  unfold FrameCodec.encode
  rw [hmap, hdr]
  unfold FrameCodec.decode
  rw [if_pos rfl]
  simp only [List.cons_append, List.nil_append, List.append_assoc]
  rw [FrameCodec.decodeBody_cons]
  have hrest : (f.payload ++ [FrameCodec.frameCrc f % 256,
      FrameCodec.frameCrc f / 256 % 256]).length = f.payload.length + 2 := by
    simp
  have hdrop : (f.payload ++ [FrameCodec.frameCrc f % 256,
      FrameCodec.frameCrc f / 256 % 256]).drop f.payload.length =
      [FrameCodec.frameCrc f % 256, FrameCodec.frameCrc f / 256 % 256] :=
    List.drop_left f.payload _
  have htake : (f.payload ++ [FrameCodec.frameCrc f % 256,
      FrameCodec.frameCrc f / 256 % 256]).take f.payload.length = f.payload :=
    List.take_left f.payload _
  rw [if_pos (le_of_eq hrest.symm), htake, hfr, hdrop]
  simp

/-- Witness for C4: the round trip evaluated on `c4WitnessFrame`. -/
theorem C4_codec_round_trip_witness :
    FrameCodec.WellFormed c4WitnessFrame ∧
    FrameCodec.decode (FrameCodec.encode c4WitnessFrame) = some c4WitnessFrame :=
  ⟨by unfold FrameCodec.WellFormed; decide,
   C4_codec_round_trip c4WitnessFrame (by unfold FrameCodec.WellFormed; decide)⟩

theorem columbia_distance_le :
    haversineDistance 34.05 (-81.03) 34 (-81) ≤ 7645.2 := by
  have hpi : (0 : ℝ) < Real.pi := Real.pi_pos
  have hpi315 : Real.pi < 3.15 := Real.pi_lt_d2
  have hpi3 : (3 : ℝ) < Real.pi := Real.pi_gt_three
  have hdlat : toRadians ((34 : ℝ) - 34.05) / 2 = -(Real.pi / 7200) := by
    unfold toRadians
    rw [show ((34 : ℝ) - 34.05) = -(1 / 20) by norm_num]
    ring
  have hdlon : toRadians ((-81 : ℝ) - (-81.03)) / 2 = Real.pi / 12000 := by
    unfold toRadians
    rw [show ((-81 : ℝ) - (-81.03)) = 3 / 100 by norm_num]
    ring
  unfold haversineDistance earthRadiusMeters
  rw [hdlat, hdlon]
  have hsin1 : Real.sin (-(Real.pi / 7200)) ^ 2 ≤ (Real.pi / 7200) ^ 2 := by
    rw [Real.sin_neg, neg_sq]
    have h1 : Real.sin (Real.pi / 7200) ≤ Real.pi / 7200 :=
      (Real.sin_lt (by positivity)).le
    have h2 : 0 ≤ Real.sin (Real.pi / 7200) :=
      Real.sin_nonneg_of_nonneg_of_le_pi (by positivity) (by linarith)
    nlinarith
  have hsin2 : Real.sin (Real.pi / 12000) ^ 2 ≤ (Real.pi / 12000) ^ 2 := by
    have h1 : Real.sin (Real.pi / 12000) ≤ Real.pi / 12000 :=
      (Real.sin_lt (by positivity)).le
    have h2 : 0 ≤ Real.sin (Real.pi / 12000) :=
      Real.sin_nonneg_of_nonneg_of_le_pi (by positivity) (by linarith)
    nlinarith
  have hcos : Real.cos (toRadians 34.05) * Real.cos (toRadians 34) ≤ 1 := by
    nlinarith [Real.cos_le_one (toRadians 34.05), Real.cos_le_one (toRadians 34),
      Real.neg_one_le_cos (toRadians 34.05), Real.neg_one_le_cos (toRadians 34)]
  have hterm2 : Real.cos (toRadians 34.05) * Real.cos (toRadians 34) *
      Real.sin (Real.pi / 12000) ^ 2 ≤ Real.sin (Real.pi / 12000) ^ 2 :=
    mul_le_of_le_one_left (sq_nonneg _) hcos
  have hp1 : (Real.pi / 7200) ^ 2 ≤ ((3.15 : ℝ) / 7200) ^ 2 := by
    have ha : Real.pi / 7200 ≤ (3.15 : ℝ) / 7200 := by linarith
    have hb : (0 : ℝ) ≤ Real.pi / 7200 := by positivity
    nlinarith
  have hp2 : (Real.pi / 12000) ^ 2 ≤ ((3.15 : ℝ) / 12000) ^ 2 := by
    have ha : Real.pi / 12000 ≤ (3.15 : ℝ) / 12000 := by linarith
    have hb : (0 : ℝ) ≤ Real.pi / 12000 := by positivity
    nlinarith
  have hnum : ((3.15 : ℝ) / 7200) ^ 2 + ((3.15 : ℝ) / 12000) ^ 2 ≤ ((13 : ℝ) / 25000) ^ 2 := by
    norm_num
  have hA : Real.sin (-(Real.pi / 7200)) ^ 2 +
      Real.cos (toRadians 34.05) * Real.cos (toRadians 34) *
        Real.sin (Real.pi / 12000) ^ 2 ≤ ((13 : ℝ) / 25000) ^ 2 := by
    linarith
  have hsqrt : Real.sqrt (Real.sin (-(Real.pi / 7200)) ^ 2 +
      Real.cos (toRadians 34.05) * Real.cos (toRadians 34) *
        Real.sin (Real.pi / 12000) ^ 2) ≤ (13 : ℝ) / 25000 := by
    calc Real.sqrt (Real.sin (-(Real.pi / 7200)) ^ 2 +
        Real.cos (toRadians 34.05) * Real.cos (toRadians 34) *
          Real.sin (Real.pi / 12000) ^ 2)
        ≤ Real.sqrt (((13 : ℝ) / 25000) ^ 2) := Real.sqrt_le_sqrt hA
    _ = (13 : ℝ) / 25000 := Real.sqrt_sq (by norm_num)
  have hsinlow : (13 : ℝ) / 25000 ≤ Real.sin (3 / 5000) := by
    have h := Real.sin_gt_sub_cube (x := (3 : ℝ) / 5000) (by norm_num) (by norm_num)
    have hcube : (13 : ℝ) / 25000 ≤ (3 : ℝ) / 5000 - ((3 : ℝ) / 5000) ^ 3 / 4 := by
      norm_num
    linarith
  have harcsin : Real.arcsin (Real.sqrt (Real.sin (-(Real.pi / 7200)) ^ 2 +
      Real.cos (toRadians 34.05) * Real.cos (toRadians 34) *
        Real.sin (Real.pi / 12000) ^ 2)) ≤ (3 : ℝ) / 5000 := by
    have hmono := Real.monotone_arcsin (hsqrt.trans hsinlow)
    rwa [Real.arcsin_sin (by linarith) (by linarith)] at hmono
  linarith

/-- C5: the waypoint (lat 34.05, lon -81.03, alt 150) checked against
the Columbia geofence (center (34.0, -81.0), radius 32186.88 m, max
altitude 120 m) lies within the radius — its great-circle distance from
the center is below the radius — but exceeds the altitude ceiling, so it
is rejected with the altitude reason. -/
theorem C5_columbia_waypoint_rejected_for_altitude :
    validateWaypointGeofence 34.05 (-81.03) 150 columbiaGeofence =
      some GeofenceReason.altitudeExceeded ∧
    haversineDistance 34.05 (-81.03) columbiaGeofence.centerLat columbiaGeofence.centerLon ≤
      columbiaGeofence.radiusMeters := by
  have hrad : columbiaGeofence.radiusMeters = 32186.88 := by
    unfold columbiaGeofence COLUMBIA_SC_SAFETY_LIMITS
    norm_num
  have halt : columbiaGeofence.maxAltitudeMeters = 120 := by
    unfold columbiaGeofence COLUMBIA_SC_SAFETY_LIMITS
    norm_num
  have hclat : columbiaGeofence.centerLat = 34 := rfl
  have hclon : columbiaGeofence.centerLon = -81 := rfl
  have hdist : haversineDistance 34.05 (-81.03) columbiaGeofence.centerLat
      columbiaGeofence.centerLon ≤ columbiaGeofence.radiusMeters := by
    rw [hclat, hclon, hrad]
    linarith [columbia_distance_le]
  refine ⟨?_, hdist⟩
  unfold validateWaypointGeofence
  rw [if_neg (not_lt.mpr hdist), if_pos (by rw [halt]; norm_num)]
